import Mathlib

/-!
Verification of the sleuthkit-based VFS handler (client/vfs_handlers/sleuthkit.py).

The Python module is shallowly embedded below: pytsk3 objects become plain
structures, proto messages become records, exceptions become Except values,
and the generator ListFiles becomes a function producing the list it yields.
External enum tags (pytsk3 and jobs_pb2 constants) are fixed numerals; the
claims depend only on the tags being pairwise distinct, not on their values.
-/

namespace Sleuthkit

/-! ## External enum constants (pytsk3 / stat / jobs_pb2) -/

def TSK_FS_NAME_TYPE_UNDEF : Nat := 0
def TSK_FS_NAME_TYPE_FIFO : Nat := 1
def TSK_FS_NAME_TYPE_CHR : Nat := 2
def TSK_FS_NAME_TYPE_DIR : Nat := 3
def TSK_FS_NAME_TYPE_BLK : Nat := 4
def TSK_FS_NAME_TYPE_REG : Nat := 5
def TSK_FS_NAME_TYPE_LNK : Nat := 6
def TSK_FS_NAME_TYPE_SOCK : Nat := 7

def TSK_FS_META_TYPE_UNDEF : Nat := 0
def TSK_FS_META_TYPE_REG : Nat := 1
def TSK_FS_META_TYPE_DIR : Nat := 2
def TSK_FS_META_TYPE_FIFO : Nat := 3
def TSK_FS_META_TYPE_CHR : Nat := 4
def TSK_FS_META_TYPE_BLK : Nat := 5
def TSK_FS_META_TYPE_LNK : Nat := 6
def TSK_FS_META_TYPE_SHAD : Nat := 7
def TSK_FS_META_TYPE_SOCK : Nat := 8

def TSK_FS_ATTR_TYPE_DEFAULT : Nat := 1
def TSK_FS_ATTR_TYPE_NTFS_DATA : Nat := 128

/-- Python stat.S_IFIFO. -/
def S_IFIFO : Nat := 4096
/-- Python stat.S_IFCHR. -/
def S_IFCHR : Nat := 8192
/-- Python stat.S_IFDIR. -/
def S_IFDIR : Nat := 16384
/-- Python stat.S_IFBLK. -/
def S_IFBLK : Nat := 24576
/-- Python stat.S_IFREG. -/
def S_IFREG : Nat := 32768
/-- Python stat.S_IFLNK. -/
def S_IFLNK : Nat := 40960
/-- Python stat.S_IFSOCK. -/
def S_IFSOCK : Nat := 49152

/-- jobs_pb2.Path.TSK pathtype tag (external proto enum; numeral immaterial). -/
def PATH_TYPE_TSK : Nat := 1

/-- jobs_pb2.Path.CASE_LITERAL path_options tag (external proto enum; numeral
immaterial — the claims only compare it for equality). -/
def CASE_LITERAL : Nat := 1

/-! ## Data model -/

/-- One component of a pathspec (jobs_pb2.Path proto message). The `inode`
field is `Option Nat`: `none` models a proto2 field that is unset
(`HasField` false, truthiness 0), `some v` a field explicitly set to `v`. -/
structure PathComponent where
  pathtype : Nat := 0
  path : String := ""
  inode : Option Nat := none
  ntfs_type : Nat := 0
  ntfs_id : Nat := 0
  path_options : Nat := 0
deriving DecidableEq

/-- The name block of a TSK entry (f.info.name). -/
structure TSKNameInfo where
  name : String := ""
  type : Nat := 0
deriving DecidableEq

/-- The metadata block of a TSK entry (f.info.meta). Scalar fields are
`Option Int`: `none` models a field whose access raises AttributeError. -/
structure TSKMetaInfo where
  addr : Nat := 0
  type : Nat := 0
  mode : Option Int := none
  nlink : Option Int := none
  uid : Option Int := none
  gid : Option Int := none
  size : Option Int := none
  atime : Option Int := none
  mtime : Option Int := none
  ctime : Option Int := none
deriving DecidableEq

/-- One attribute (data stream) of an entry (attribute.info). A `none` name
models a NULL stream name; `some ""` an empty one — the code distinguishes
`is not None` from truthiness, so both are kept. -/
structure TSKAttrInfo where
  type : Nat := 0
  id : Nat := 0
  name : Option String := none
  size : Int := 0
deriving DecidableEq

/-- A child directory entry as produced by iterating fd.as_directory().
`nameInfo = none` models f.info.name being None (so f.info.name.name raises
AttributeError); `meta = none` models f.info.meta being None. -/
structure TSKEntry where
  nameInfo : Option TSKNameInfo := none
  meta : Option TSKMetaInfo := none
  attrs : List TSKAttrInfo := []
deriving DecidableEq

/-- The raw byte source beneath the parsed filesystem: its path string and,
when the source is a partition-style handler, its byte offset. -/
structure RawDevice where
  path : String := ""
  image_offset : Option Int := none
deriving DecidableEq

/-- The entry a handler has successfully resolved (self.fd). An entry the
parser opened always exposes its metadata scalars, so they are plain fields
here; `children` is what iterating fd.as_directory() yields and `attrs` what
iterating the file itself yields. -/
structure OpenedEntry where
  meta_addr : Nat := 0
  meta_size : Int := 0
  meta_type : Nat := 0
  name : String := ""
  attrs : List TSKAttrInfo := []
  children : List TSKEntry := []
deriving DecidableEq

/-- A TSKFile handler instance: resolved address, borrowed raw device,
resolved entry, resolved size and current read offset. The `path` field is
the handler's own path string exposed by the generic VFS layer (used only
when a non-directory handler itself serves as the raw byte source). -/
structure TSKFile where
  pathspec : List PathComponent := []
  tsk_raw_device : RawDevice := {}
  path : String := ""
  fd : OpenedEntry := {}
  size : Int := 0
  offset : Int := 0
deriving DecidableEq

/-- Normalized stat record (jobs_pb2.StatResponse). Scalar fields are kept
as Nat: every value the code stores is non-negative after the unsigned
reinterpretation of negative raw values. -/
structure StatResponse where
  st_ino : Nat := 0
  st_mode : Nat := 0
  st_nlink : Nat := 0
  st_uid : Nat := 0
  st_gid : Nat := 0
  st_size : Nat := 0
  st_atime : Nat := 0
  st_mtime : Nat := 0
  st_ctime : Nat := 0
  pathspec : List PathComponent := []
deriving DecidableEq

/-- Error outcomes of the handler's operations. Every raised IOError is one
of these; message strings are carried only where a claim mentions them. -/
inductive IOErr where
  | noFileBase : IOErr
  | unableToParseBase : IOErr
  | notFound : IOErr
  | notAFile : String → IOErr
  | notADirectory : String → IOErr
  | ioFault : String → IOErr
deriving DecidableEq

/-! ## Pathspec helpers

The pathspec proto list operations used by the code (`.last` access and
in-place mutation of the last component) are expressed with the two
functions below. -/

/-- The last component of a pathspec (the terminal resource). -/
def lastComp : List PathComponent → PathComponent
  | [] => {}
  | [c] => c
  | _ :: c :: rest => lastComp (c :: rest)

/-- Rewrite the last component of a pathspec in place. -/
def setLast (ps : List PathComponent) (g : PathComponent → PathComponent) :
    List PathComponent :=
  match ps with
  | [] => []
  | [c] => [g c]
  | c :: c2 :: rest => c :: setLast (c2 :: rest) g

/-- Modelled from the spec: the path join collaborator (utils.JoinPath of the
generic path-spec layer, outside this core) joins two path fragments with the
canonical separator. -/
def JoinPath (a b : String) : String := a ++ "/" ++ b

/-! ## Predicates on the handler -/

/-- TSKFile.IsFile: the resolved entry's metadata type is the regular-file
tag. -/
def IsFile (self : TSKFile) : Bool :=
  self.fd.meta_type == TSK_FS_META_TYPE_REG

/-- TSKFile.IsDirectory: the resolved entry's metadata type is the directory
tag. -/
def IsDirectory (self : TSKFile) : Bool :=
  self.fd.meta_type == TSK_FS_META_TYPE_DIR

/-! ## Read -/

/-- TSKFile.Read. The pytsk3 random-access read is passed in as
`read_random offset length ntfs_type ntfs_id`, returning either the bytes or
the message of a raised RuntimeError; the code wraps such a fault into an
IOError at this boundary. -/
def Read (self : TSKFile)
    (read_random : Int → Int → Nat → Nat → Except String (List Nat))
    (length : Int) : Except IOErr (List Nat × TSKFile) :=
  if IsFile self = false then
    .error (.notAFile (lastComp self.pathspec).path)
  else
    let available := min (self.size - self.offset) length
    if 0 < available then
      match read_random self.offset available (lastComp self.pathspec).ntfs_type
          (lastComp self.pathspec).ntfs_id with
      | .error e => .error (.ioFault e)
      | .ok data => .ok (data, { self with offset := self.offset + data.length })
    else
      .ok ([], self)

/-- Modelled from the spec: a well-behaved underlying random-access read over
a resolved stream whose bytes are `content` — it returns the requested range
of the stream, clipped to the stream's end, and never faults. -/
def sliceRead (content : List Nat) (offset length : Int) (_t _i : Nat) :
    Except String (List Nat) :=
  .ok ((content.drop offset.toNat).take length.toNat)

/-! ## Stat translator -/

/-- The TSK-type-to-st_mode table TSKFile.FILE_TYPE_LOOKUP, applied with
Python dict .get default 0. -/
def FILE_TYPE_LOOKUP (t : Nat) : Nat :=
  if t = TSK_FS_NAME_TYPE_UNDEF then 0
  else if t = TSK_FS_NAME_TYPE_FIFO then S_IFIFO
  else if t = TSK_FS_NAME_TYPE_CHR then S_IFCHR
  else if t = TSK_FS_NAME_TYPE_DIR then S_IFDIR
  else if t = TSK_FS_NAME_TYPE_BLK then S_IFBLK
  else if t = TSK_FS_NAME_TYPE_REG then S_IFREG
  else if t = TSK_FS_NAME_TYPE_LNK then S_IFLNK
  else if t = TSK_FS_NAME_TYPE_SOCK then S_IFSOCK
  else 0

/-- The metadata-type-to-st_mode table TSKFile.META_TYPE_LOOKUP, applied with
Python dict .get default 0 (note the source maps the block-device metadata
type to 0). -/
def META_TYPE_LOOKUP (t : Nat) : Nat :=
  if t = TSK_FS_META_TYPE_BLK then 0
  else if t = TSK_FS_META_TYPE_CHR then S_IFCHR
  else if t = TSK_FS_META_TYPE_DIR then S_IFDIR
  else if t = TSK_FS_META_TYPE_FIFO then S_IFIFO
  else if t = TSK_FS_META_TYPE_LNK then S_IFLNK
  else if t = TSK_FS_META_TYPE_REG then S_IFREG
  else if t = TSK_FS_META_TYPE_SOCK then S_IFSOCK
  else 0

/-- TSKFile.BLACKLIST_FILES: directory entries never returned. -/
def BLACKLIST_FILES : List String := ["$OrphanFiles"]

/-- One scalar of the metadata copy loop: `value = int(getattr(meta, a))`,
then `if value < 0: value &= 0xFFFFFFFF`. Bitwise AND of a Python integer
with the all-ones 32-bit mask is reduction modulo 2^32, which is what the
emod below computes; the result is non-negative, so it lands in Nat. -/
def pyUint (v : Int) : Nat :=
  if v < 0 then (v % 4294967296).toNat else v.toNat

/-- One `setattr(response, "st_" + a, value)` step guarded by the
AttributeError handler: an absent metadata field leaves the response field
at its current (default) value. -/
def copyScalar (cur : Nat) (v : Option Int) : Nat :=
  match v with
  | some x => pyUint x
  | none => cur

/-- The `if meta:` block of MakeStatResponse: st_ino plus the loop over the
eight scalar fields. Each field is attempted independently (the try/except
wraps one field at a time), so the loop is the pointwise update below. -/
def applyMetaFields (r : StatResponse) (m : TSKMetaInfo) : StatResponse :=
  { r with
    st_ino := m.addr
    st_mode := copyScalar r.st_mode m.mode
    st_nlink := copyScalar r.st_nlink m.nlink
    st_uid := copyScalar r.st_uid m.uid
    st_gid := copyScalar r.st_gid m.gid
    st_size := copyScalar r.st_size m.size
    st_atime := copyScalar r.st_atime m.atime
    st_mtime := copyScalar r.st_mtime m.mtime
    st_ctime := copyScalar r.st_ctime m.ctime }

/-- TSKFile.MakeStatResponse. Returns `none` when the method raises
AttributeError, which happens exactly when `info.meta` is None: the line
`child_pathspec.last.inode = meta.addr` dereferences it unconditionally.
`append_name = none` models the Python default False; a supplied name is
joined onto the last path only when truthy (non-empty), mirroring
`if append_name:`. The attribute name suffix is appended under an
`is not None` check, so an empty stream name still appends a bare colon. -/
def MakeStatResponse (self_pathspec : List PathComponent) (tsk_file : TSKEntry)
    (tsk_attribute : Option TSKAttrInfo := none)
    (append_name : Option String := none) : Option StatResponse :=
  let response : StatResponse :=
    match tsk_file.meta with
    | some m => applyMetaFields {} m
    | none => {}
  let child_pathspec : List PathComponent :=
    match append_name with
    | some n =>
      if n = "" then self_pathspec
      else setLast self_pathspec (fun c => { c with path := JoinPath c.path n })
    | none => self_pathspec
  match tsk_file.meta with
  | none => none
  | some m =>
    let child_pathspec := setLast child_pathspec (fun c => { c with inode := some m.addr })
    let child_pathspec :=
      match tsk_attribute with
      | some a =>
        let cp := setLast child_pathspec
          (fun c => { c with ntfs_type := a.type, ntfs_id := a.id })
        match a.name with
        | some an => setLast cp (fun c => { c with path := c.path ++ ":" ++ an })
        | none => cp
      | none => child_pathspec
    let response :=
      match tsk_file.nameInfo with
      | some ni => { response with st_mode := response.st_mode ||| FILE_TYPE_LOOKUP ni.type }
      | none => response
    let response := { response with st_mode := response.st_mode ||| META_TYPE_LOOKUP m.type }
    some { response with pathspec := child_pathspec }

/-! ## Directory listing -/

/-- Truthiness of attribute.info.name in `if attribute.info.name:`: a stream
name that is neither None nor empty. -/
def attrNameTruthy (a : TSKAttrInfo) : Bool :=
  match a.name with
  | some s => !(s == "")
  | none => false

/-- The drop test of ListFiles (line 264):
`name in [".", ".."] or name in self.BLACKLIST_FILES`. -/
def skippedName (n : String) : Bool :=
  n == "." || n == ".." || BLACKLIST_FILES.contains n

/-- The records ListFiles yields for one child directory entry. A `[]`
result is an entry the loop skips: a pseudo-entry or blacklisted name, or an
entry whose field access raised AttributeError (name block or metadata block
absent), which the per-entry try/except swallows. -/
def listFilesEntry (self_pathspec : List PathComponent) (f : TSKEntry) :
    List StatResponse :=
  match f.nameInfo with
  | none => []
  | some ni =>
    if skippedName ni.name then []
    else
      match MakeStatResponse self_pathspec f none (some ni.name) with
      | none => []
      | some r =>
        r :: (f.attrs.filter fun a =>
                (a.type == TSK_FS_ATTR_TYPE_NTFS_DATA
                  || a.type == TSK_FS_ATTR_TYPE_DEFAULT)
                && attrNameTruthy a).filterMap
              (fun a => MakeStatResponse self_pathspec f (some a) (some ni.name))

/-- TSKFile.ListFiles: the whole yielded sequence, or the IOError raised for
a non-directory handle. The directory iteration (fd.as_directory) is only
reached in the directory branch. -/
def ListFiles (self : TSKFile) : Except IOErr (List StatResponse) :=
  if IsDirectory self then
    .ok (self.fd.children.flatMap (listFilesEntry self.pathspec))
  else
    .error (.notADirectory self.fd.name)

/-! ## Handle construction (TSKFile.__init__) -/

/-- TSKFile.GetAttribute: first attribute whose type and id both match. -/
def GetAttribute (attrs : List TSKAttrInfo) (ntfs_type ntfs_id : Nat) :
    Option TSKAttrInfo :=
  attrs.find? fun a => a.type == ntfs_type && a.id == ntfs_id

/-- The base handle passed to the constructor: absent, another TSKFile, or a
handler of a different backend (with its directory flag, raw-device view and
address). -/
inductive BaseFd where
  | noBase : BaseFd
  | tsk : TSKFile → BaseFd
  | other : Bool → RawDevice → List PathComponent → BaseFd

/-- Modelled from the spec: the generic VFSHandler constructor starts the new
instance's address as a copy of the base's address, which the TSK branches
then rewrite in place. -/
def BaseFd.basePathspec : BaseFd → List PathComponent
  | .noBase => []
  | .tsk b => b.pathspec
  | .other _ _ ps => ps

/-- The device identity string of lines 136–138: raw device path, plus the
image offset when the source exposes one. -/
def fdHash (r : RawDevice) : String :=
  match r.image_offset with
  | some o => r.path ++ ":" ++ toString o
  | none => r.path

/-- Set CASE_LITERAL on the last component (line 134: once this open
succeeds the recorded casing is literal). -/
def caseLiteralLast (ps : List PathComponent) : List PathComponent :=
  setLast ps fun c => { c with path_options := CASE_LITERAL }

/-- The address-rewriting prefix of TSKFile.__init__ (lines 104–138): decide
how to chain on the base, producing the borrowed/derived raw device and the
rewritten pathspec (with the last component already marked CASE_LITERAL), or
the IOError the constructor raises for an unusable base. A TSKFile base that
is not a directory falls through to the file-like branch and is itself used
as the raw device (it exposes a path and no image_offset). -/
def initAddress (base_fd : BaseFd) (pathspec : PathComponent) :
    Except IOErr (RawDevice × List PathComponent) :=
  match base_fd with
  | .noBase => .error .noFileBase
  | .tsk b =>
    if IsDirectory b then
      let last_path := JoinPath (lastComp b.pathspec).path pathspec.path
      let ps := b.pathspec.dropLast ++ [pathspec]
      let ps := setLast ps fun c => { c with path := last_path }
      .ok (b.tsk_raw_device, caseLiteralLast ps)
    else
      .ok ({ path := b.path, image_offset := none }, caseLiteralLast (b.pathspec ++ [pathspec]))
  | .other isDir raw ps0 =>
    if isDir then .error .unableToParseBase
    else .ok (raw, caseLiteralLast (ps0 ++ [pathspec]))

/-- The parse session's entry lookups: open_meta (by inode) and open (by
path), each returning the resolved entry or signalling the IOError pytsk3
raises when the entry does not exist. -/
structure FSModel where
  open_meta : Nat → Option OpenedEntry
  open_path : String → Option OpenedEntry

/-- TSKFile.__init__ end to end: rewrite the address, then resolve the
terminal entry against the parse session `fs` (the device-cache phase that
produces `fs` is modelled separately). The first component of the result is
the caller-visible pathspec after the constructor returns or raises: the
rewrite happens before the lookup, so a failed lookup leaves the rewritten
address behind. The inode branch (HasField) resolves size through
GetAttribute; the name branch records the discovered inode back into the
address. -/
def tskInit (base_fd : BaseFd) (pathspec : PathComponent) (fs : FSModel) :
    List PathComponent × Except IOErr TSKFile :=
  match initAddress base_fd pathspec with
  | .error e => (base_fd.basePathspec, .error e)
  | .ok (raw, ps) =>
    match pathspec.inode with
    | some n =>
      match fs.open_meta n with
      | none => (ps, .error .notFound)
      | some entry =>
        let size :=
          match GetAttribute entry.attrs pathspec.ntfs_type pathspec.ntfs_id with
          | some a => a.size
          | none => entry.meta_size
        (ps, .ok { pathspec := ps, tsk_raw_device := raw, fd := entry,
                   size := size, offset := 0 })
    | none =>
      match fs.open_path (lastComp ps).path with
      | none => (ps, .error .notFound)
      | some entry =>
        let ps' := setLast ps fun c => { c with inode := some entry.meta_addr }
        (ps', .ok { pathspec := ps', tsk_raw_device := raw, fd := entry,
                    size := entry.meta_size, offset := 0 })

/-! ## The Open entry point (TSKFile.Open) -/

/-- Where TSKFile.Open routes a resolution: the mount-point rewrite branch
(returns no handle, address rewritten), the direct open-by-inode branch, or
the delegation to the generic name-based VFSHandler.Open. -/
inductive OpenBranch where
  | rewritten : OpenBranch
  | inodeOpen : PathComponent → OpenBranch
  | generic : OpenBranch
deriving DecidableEq

/-- The dispatch of TSKFile.Open (lines 287–320): `fd is None and
component.pathtype == TSK` takes the mount rewrite; otherwise
`elif component.inode:` — proto scalar truthiness, i.e. a present and
non-zero inode — takes the inode fast path; everything else delegates. -/
def TSKOpen (fdPresent : Bool) (component : PathComponent) : OpenBranch :=
  if !fdPresent && component.pathtype == PATH_TYPE_TSK then
    .rewritten
  else if component.inode.getD 0 ≠ 0 then
    .inodeOpen component
  else
    .generic

/-! ## Device cache race (lines 30–31 and 141–156)

The constructor's cache phase is `try: DEVICE_CACHE.Get(fd_hash) except
KeyError: build FS_Info; DEVICE_CACHE.Put(...)`. The model below runs two
first-time opens for the same device identity as an interleaved two-thread
program whose shared state is the cache slot for that identity; Get and Put
are each atomic (the cache contract promises concurrent-lookup safety), but
nothing makes the Get–Put span atomic. `constructed` counts FS_Info parse
session constructions. -/

/-- Program counters: 0 = about to Get, 1 = Get missed (about to construct
and Put), 2 = finished. -/
structure RaceState where
  cache : Option Nat := none
  constructed : Nat := 0
  pc1 : Nat := 0
  pc2 : Nat := 0
deriving DecidableEq

/-- One atomic step of one thread of the cache phase. -/
def raceThreadStep (pc : Nat) (cache : Option Nat) (constructed : Nat) :
    Nat × Option Nat × Nat :=
  match pc, cache with
  | 0, some _ => (2, cache, constructed)
  | 0, none => (1, none, constructed)
  | 1, _ => (2, some constructed, constructed + 1)
  | _, _ => (pc, cache, constructed)

/-- Step the chosen thread (true = first thread). -/
def raceStep (s : RaceState) (t : Bool) : RaceState :=
  if t then
    let (pc, c, k) := raceThreadStep s.pc1 s.cache s.constructed
    { s with pc1 := pc, cache := c, constructed := k }
  else
    let (pc, c, k) := raceThreadStep s.pc2 s.cache s.constructed
    { s with pc2 := pc, cache := c, constructed := k }

/-- Run a schedule (a list of thread choices) from a state. -/
def raceRun (sched : List Bool) (s : RaceState) : RaceState :=
  sched.foldl raceStep s

/-! ## Helper lemmas -/

theorem setLast_append (c : PathComponent) (g : PathComponent → PathComponent) :
    ∀ xs : List PathComponent, setLast (xs ++ [c]) g = xs ++ [g c] := by
  intro xs
  induction xs with
  | nil => rfl
  | cons x xs ih =>
    cases xs with
    | nil => rfl
    | cons y ys =>
      simpa [setLast] using ih

theorem lastComp_append (c : PathComponent) :
    ∀ xs : List PathComponent, lastComp (xs ++ [c]) = c := by
  intro xs
  induction xs with
  | nil => rfl
  | cons x xs ih =>
    cases xs with
    | nil => rfl
    | cons y ys =>
      simpa [lastComp] using ih

theorem length_filterMap_of_isSome {α β : Type} (g : α → Option β) :
    ∀ l : List α, (∀ a ∈ l, (g a).isSome) → (l.filterMap g).length = l.length := by
  intro l
  induction l with
  | nil => intro _; rfl
  | cons a l ih =>
    intro h
    have ha := h a (List.mem_cons_self a l)
    obtain ⟨b, hb⟩ := Option.isSome_iff_exists.mp ha
    have hl := ih fun x hx => h x (List.mem_cons_of_mem a hx)
    simp [List.filterMap_cons, hb, hl]

/-- MakeStatResponse raises (returns none) exactly when the metadata block
is absent; with metadata present it always produces a record. -/
theorem MakeStatResponse_isSome (ps : List PathComponent) (f : TSKEntry)
    (ta : Option TSKAttrInfo) (an : Option String) (m : TSKMetaInfo)
    (hm : f.meta = some m) : (MakeStatResponse ps f ta an).isSome := by
  simp [MakeStatResponse, hm]

/-! ## C1: bounds-checked read -/

/-- C1: on a regular-file handle with resolved size S and offset O, when
min(S − O, length) is positive, Read returns exactly that many bytes, taken
from the stream at offset O, and advances the offset by the number of bytes
returned; when min(S − O, length) ≤ 0 (reads at or past end of file), Read
returns an empty result without an error and leaves the handle unchanged. -/
theorem tsk_read_bounds (self : TSKFile) (content : List Nat) (length : Int)
    (hfile : IsFile self = true)
    (hsize : self.size = content.length)
    (hoff : 0 ≤ self.offset) :
    (0 < min (self.size - self.offset) length →
      ∃ data : List Nat,
        Read self (sliceRead content) length =
          .ok (data, { self with offset := self.offset + data.length }) ∧
        (data.length : Int) = min (self.size - self.offset) length ∧
        data = (content.drop self.offset.toNat).take
                 (min (self.size - self.offset) length).toNat) ∧
    (min (self.size - self.offset) length ≤ 0 →
      Read self (sliceRead content) length = .ok ([], self)) := by
  constructor
  · intro hpos
    refine ⟨(content.drop self.offset.toNat).take
              (min (self.size - self.offset) length).toNat, ?_, ?_, rfl⟩
    · simp [Read, hfile, sliceRead, hpos]
    · simp only [List.length_take, List.length_drop]
      omega
  · intro hneg
    have : ¬ 0 < min (self.size - self.offset) length := by omega
    simp [Read, hfile, this]

/-- A 3-byte regular file whose read offset sits at end of file. -/
def readEofSample : TSKFile :=
  { fd := { meta_type := TSK_FS_META_TYPE_REG }, size := 3, offset := 3 }

/-- Concrete run of tsk_read_bounds: a 3-byte file read at end of file
returns empty without error. -/
theorem tsk_read_bounds_witness :
    IsFile readEofSample = true ∧
    Read readEofSample (sliceRead [10, 20, 30]) 5 = .ok ([], readEofSample) :=
  ⟨rfl, (tsk_read_bounds readEofSample [10, 20, 30] 5 rfl rfl (by decide)).2
    (by decide)⟩

/-! ## C4: listing a non-directory -/

/-- C4: ListFiles on a handle whose resolved entry is not directory-typed
fails with the not-a-directory IOError, producing no element of the result
sequence; the outcome is the same whatever the directory contents are, i.e.
the check happens before any directory I/O. -/
theorem tsk_list_files_not_directory (self : TSKFile)
    (h : IsDirectory self = false) :
    ListFiles self = .error (.notADirectory self.fd.name) ∧
    ∀ cs : List TSKEntry,
      ListFiles { self with fd := { self.fd with children := cs } } =
        .error (.notADirectory self.fd.name) := by
  constructor
  · simp [ListFiles, h]
  · intro cs
    have h2 : IsDirectory { self with fd := { self.fd with children := cs } } = false := h
    simp [ListFiles, h2]

/-- A handle resolved to a regular file named f.txt. -/
def nonDirSample : TSKFile :=
  { fd := { meta_type := TSK_FS_META_TYPE_REG, name := "f.txt" } }

/-- Concrete run of tsk_list_files_not_directory on a regular-file handle. -/
theorem tsk_list_files_not_directory_witness :
    IsDirectory nonDirSample = false ∧
    ListFiles nonDirSample = .error (.notADirectory "f.txt") :=
  ⟨rfl, (tsk_list_files_not_directory nonDirSample rfl).1⟩

/-! ## C2: directory listing with alternate data streams -/

/-- C2: on a directory handle, ListFiles is the concatenation over child
entries of listFilesEntry, where an entry named '.', '..' or a blacklisted
housekeeping name contributes nothing; an entry whose name block or metadata
block access fails (AttributeError) is skipped silently; and every other
entry contributes exactly one default-content record immediately followed by
one record per attribute whose type is a real data stream class (NTFS_DATA
or DEFAULT) and whose name is non-empty. -/
theorem tsk_list_files_streams (self : TSKFile) (h : IsDirectory self = true) :
    ListFiles self = .ok (self.fd.children.flatMap (listFilesEntry self.pathspec)) ∧
    (∀ f : TSKEntry, f.nameInfo = none → listFilesEntry self.pathspec f = []) ∧
    (∀ f : TSKEntry, ∀ ni : TSKNameInfo, f.nameInfo = some ni →
      (ni.name = "." ∨ ni.name = ".." ∨ ni.name ∈ BLACKLIST_FILES) →
      listFilesEntry self.pathspec f = []) ∧
    (∀ f : TSKEntry, f.meta = none → listFilesEntry self.pathspec f = []) ∧
    (∀ f : TSKEntry, ∀ ni : TSKNameInfo, ∀ m : TSKMetaInfo,
      f.nameInfo = some ni → f.meta = some m →
      ¬(ni.name = "." ∨ ni.name = ".." ∨ ni.name ∈ BLACKLIST_FILES) →
      ∃ r : StatResponse,
        MakeStatResponse self.pathspec f none (some ni.name) = some r ∧
        listFilesEntry self.pathspec f =
          r :: (f.attrs.filter fun a =>
                  (a.type == TSK_FS_ATTR_TYPE_NTFS_DATA
                    || a.type == TSK_FS_ATTR_TYPE_DEFAULT)
                  && attrNameTruthy a).filterMap
                (fun a => MakeStatResponse self.pathspec f (some a) (some ni.name)) ∧
        (listFilesEntry self.pathspec f).length =
          1 + (f.attrs.filter fun a =>
                 (a.type == TSK_FS_ATTR_TYPE_NTFS_DATA
                   || a.type == TSK_FS_ATTR_TYPE_DEFAULT)
                 && attrNameTruthy a).length) := by
  have hskip : ∀ n : String,
      (n = "." ∨ n = ".." ∨ n ∈ BLACKLIST_FILES) → skippedName n = true := by
    intro n hn
    simp only [BLACKLIST_FILES, List.mem_singleton] at hn
    rcases hn with hn | hn | hn <;> simp [skippedName, BLACKLIST_FILES, hn]
  refine ⟨by simp [ListFiles, h], ?_, ?_, ?_, ?_⟩
  · intro f hf
    simp [listFilesEntry, hf]
  · intro f ni hni hbad
    simp [listFilesEntry, hni, hskip ni.name hbad]
  · intro f hm
    cases hni : f.nameInfo with
    | none => simp [listFilesEntry, hni]
    | some ni =>
      by_cases hb : skippedName ni.name = true
      · simp [listFilesEntry, hni, hb]
      · have hb2 : skippedName ni.name = false := by
          cases hx : skippedName ni.name
          · rfl
          · exact absurd hx hb
        simp [listFilesEntry, hni, hb2, MakeStatResponse, hm]
  · intro f ni m hni hm hgood
    have hb : skippedName ni.name = false := by
      cases hx : skippedName ni.name
      · rfl
      · refine absurd ?_ hgood
        simp only [skippedName, BLACKLIST_FILES] at hx
        simp only [BLACKLIST_FILES, List.mem_singleton]
        simp at hx
        tauto
    obtain ⟨r, hr⟩ := Option.isSome_iff_exists.mp
      (MakeStatResponse_isSome self.pathspec f none (some ni.name) m hm)
    refine ⟨r, hr, ?_, ?_⟩
    · simp [listFilesEntry, hni, hb, hr]
    · have hlen := length_filterMap_of_isSome
        (fun a => MakeStatResponse self.pathspec f (some a) (some ni.name))
        (f.attrs.filter fun a =>
          (a.type == TSK_FS_ATTR_TYPE_NTFS_DATA
            || a.type == TSK_FS_ATTR_TYPE_DEFAULT)
          && attrNameTruthy a)
        (fun a _ => MakeStatResponse_isSome self.pathspec f (some a) (some ni.name) m hm)
      simp [listFilesEntry, hni, hb, hr, hlen, Nat.add_comm]

/-- A directory containing a '.' pseudo-entry, a '$OrphanFiles' housekeeping
entry, a broken entry (no metadata), and note.txt with one named NTFS data
stream and one unnamed one. -/
def dirSample : TSKFile :=
  { fd := { meta_type := TSK_FS_META_TYPE_DIR, name := "docs",
            children :=
              [ { nameInfo := some { name := ".", type := TSK_FS_NAME_TYPE_DIR },
                  meta := some { addr := 2, type := TSK_FS_META_TYPE_DIR } },
                { nameInfo := some { name := "$OrphanFiles", type := TSK_FS_NAME_TYPE_DIR },
                  meta := some { addr := 3, type := TSK_FS_META_TYPE_DIR } },
                { nameInfo := some { name := "broken", type := TSK_FS_NAME_TYPE_REG } },
                { nameInfo := some { name := "note.txt", type := TSK_FS_NAME_TYPE_REG },
                  meta := some { addr := 55, type := TSK_FS_META_TYPE_REG },
                  attrs :=
                    [ { type := TSK_FS_ATTR_TYPE_NTFS_DATA, id := 1, name := none, size := 20 },
                      { type := TSK_FS_ATTR_TYPE_NTFS_DATA, id := 2,
                        name := some "secret", size := 10 } ] } ] },
    pathspec := [{ pathtype := PATH_TYPE_TSK, path := "/docs" }] }

/-- Concrete run of tsk_list_files_streams on dirSample. -/
theorem tsk_list_files_streams_witness :
    IsDirectory dirSample = true ∧
    ListFiles dirSample =
      .ok (dirSample.fd.children.flatMap (listFilesEntry dirSample.pathspec)) :=
  ⟨rfl, (tsk_list_files_streams dirSample rfl).1⟩

/-! ## C3: st_mode merge, and C7: unsigned scalar reinterpretation -/

theorem pyUint_neg (v : Int) (hv : v < 0) : (pyUint v : Int) = v % 4294967296 := by
  simp only [pyUint, if_pos hv]
  exact Int.toNat_of_nonneg (Int.emod_nonneg v (by norm_num))

theorem pyUint_nonneg (v : Int) (hv : 0 ≤ v) : (pyUint v : Int) = v := by
  simp only [pyUint, if_neg (not_lt.mpr hv)]
  exact Int.toNat_of_nonneg hv

/-- An entry whose metadata carries permission bits 0o644 in its raw mode
scalar: the copied scalar contributes to st_mode alongside the two type
lookups. -/
def modeSampleEntry : TSKEntry :=
  { nameInfo := some { name := "f", type := TSK_FS_NAME_TYPE_REG },
    meta := some { addr := 7, type := TSK_FS_META_TYPE_REG, mode := some 420 } }

/-- C3 fails as stated: for modeSampleEntry the produced st_mode is 33188
(0o100644), while the OR of the two type-table lookups alone is 32768
(0o100000) — the copied raw mode scalar is also merged in. -/
theorem tsk_stat_mode_counterexample :
    (MakeStatResponse [{}] modeSampleEntry none none).map StatResponse.st_mode
      = some 33188 ∧
    FILE_TYPE_LOOKUP TSK_FS_NAME_TYPE_REG ||| META_TYPE_LOOKUP TSK_FS_META_TYPE_REG
      = 32768 ∧
    (33188 : Nat) ≠ 32768 := by
  refine ⟨by decide, by decide, by decide⟩

/-- C3 amended: for every entry translated into a Stat Record (metadata
present), st_mode equals the copied raw mode scalar (unsigned-reinterpreted,
0 when absent) bitwise-OR the directory-entry-type table lookup (0 when the
name block is absent or the type is not in the table) bitwise-OR the
inode-metadata-type table lookup; disagreeing type sources are simply merged
and no error is raised. -/
theorem tsk_stat_mode_merge (ps : List PathComponent) (f : TSKEntry)
    (ta : Option TSKAttrInfo) (an : Option String) (m : TSKMetaInfo)
    (hm : f.meta = some m) :
    ∃ r : StatResponse, MakeStatResponse ps f ta an = some r ∧
      r.st_mode = copyScalar 0 m.mode
        ||| (match f.nameInfo with
             | some ni => FILE_TYPE_LOOKUP ni.type
             | none => 0)
        ||| META_TYPE_LOOKUP m.type := by
  obtain ⟨r, hr⟩ := Option.isSome_iff_exists.mp
    (MakeStatResponse_isSome ps f ta an m hm)
  refine ⟨r, hr, ?_⟩
  cases hni : f.nameInfo with
  | none =>
    simp only [MakeStatResponse, hm, hni] at hr
    injection hr with hr
    subst hr
    simp [applyMetaFields]
  | some ni =>
    simp only [MakeStatResponse, hm, hni] at hr
    injection hr with hr
    subst hr
    simp [applyMetaFields]

/-- The record modeSampleEntry translates to. -/
def modeSampleResult : StatResponse :=
  (MakeStatResponse [{}] modeSampleEntry none none).getD {}

/-- Concrete run of tsk_stat_mode_merge on modeSampleEntry: 420 (0o644) OR
32768 OR 32768 = 33188. -/
theorem tsk_stat_mode_merge_witness :
    MakeStatResponse [{}] modeSampleEntry none none = some modeSampleResult ∧
    modeSampleResult.st_mode = copyScalar 0 (some 420)
      ||| FILE_TYPE_LOOKUP TSK_FS_NAME_TYPE_REG
      ||| META_TYPE_LOOKUP TSK_FS_META_TYPE_REG := by
  obtain ⟨r, hr, hm⟩ := tsk_stat_mode_merge [{}] modeSampleEntry none none
    { addr := 7, type := TSK_FS_META_TYPE_REG, mode := some 420 } rfl
  refine ⟨rfl, ?_⟩
  have hre : r = modeSampleResult := by
    have h2 : MakeStatResponse [{}] modeSampleEntry none none = some modeSampleResult := rfl
    rw [hr] at h2
    exact Option.some.inj h2
  rw [← hre, hm]
  rfl

/-- C7: every scalar metadata field copied into the record goes through the
same store step: absent fields are left at the record's zero default, a
negative raw value is stored as its reinterpretation modulo 2^32 (the low 32
bits), and a non-negative raw value is stored unchanged. The seven scalars
other than mode appear in the final record exactly as stored; the mode
scalar's stored value is the st_mode of the metadata-copy phase (type bits
are OR'd onto it afterwards). -/
theorem tsk_stat_scalar_mask (ps : List PathComponent) (f : TSKEntry)
    (ta : Option TSKAttrInfo) (an : Option String) (m : TSKMetaInfo)
    (r : StatResponse) (hm : f.meta = some m)
    (hr : MakeStatResponse ps f ta an = some r) :
    r.st_nlink = copyScalar 0 m.nlink ∧
    r.st_uid = copyScalar 0 m.uid ∧
    r.st_gid = copyScalar 0 m.gid ∧
    r.st_size = copyScalar 0 m.size ∧
    r.st_atime = copyScalar 0 m.atime ∧
    r.st_mtime = copyScalar 0 m.mtime ∧
    r.st_ctime = copyScalar 0 m.ctime ∧
    (applyMetaFields {} m).st_mode = copyScalar 0 m.mode ∧
    (∀ v : Int, v < 0 → (copyScalar 0 (some v) : Int) = v % 4294967296) ∧
    (∀ v : Int, 0 ≤ v → (copyScalar 0 (some v) : Int) = v) ∧
    copyScalar 0 none = 0 := by
  cases hni : f.nameInfo with
  | none =>
    simp only [MakeStatResponse, hm, hni] at hr
    injection hr with hr
    subst hr
    exact ⟨rfl, rfl, rfl, rfl, rfl, rfl, rfl, rfl,
      fun v hv => pyUint_neg v hv, fun v hv => pyUint_nonneg v hv, rfl⟩
  | some ni =>
    simp only [MakeStatResponse, hm, hni] at hr
    injection hr with hr
    subst hr
    exact ⟨rfl, rfl, rfl, rfl, rfl, rfl, rfl, rfl,
      fun v hv => pyUint_neg v hv, fun v hv => pyUint_nonneg v hv, rfl⟩

/-- An entry with a negative raw mtime and an absent atime. -/
def maskSampleEntry : TSKEntry :=
  { nameInfo := some { name := "x", type := TSK_FS_NAME_TYPE_REG },
    meta := some { addr := 5, type := TSK_FS_META_TYPE_REG,
                   mtime := some (-1), size := some 7 } }

/-- The record maskSampleEntry translates to. -/
def maskSampleResult : StatResponse :=
  (MakeStatResponse [{}] maskSampleEntry none none).getD {}

/-- Concrete run of tsk_stat_scalar_mask: the negative mtime lands as
4294967295 and the absent atime stays 0. -/
theorem tsk_stat_scalar_mask_witness :
    MakeStatResponse [{}] maskSampleEntry none none = some maskSampleResult ∧
    maskSampleResult.st_mtime = copyScalar 0 (some (-1)) ∧
    maskSampleResult.st_mtime = 4294967295 ∧
    maskSampleResult.st_atime = 0 :=
  ⟨rfl,
   (tsk_stat_scalar_mask [{}] maskSampleEntry none none _ maskSampleResult
      rfl rfl).2.2.2.2.2.1,
   by decide, by decide⟩

/-! ## C5: fault wrapping and type check in Read -/

/-- C5: Read raises the not-a-file IOError for a handle that is not a
regular-file entry, independent of the underlying reader (so before any
I/O); and when the underlying random-access read raises a low-level runtime
fault, Read re-surfaces it as an ordinary I/O error carrying the fault's
message — the result type admits no uncategorized fault. -/
theorem tsk_read_fault_wrapped (self : TSKFile)
    (rr : Int → Int → Nat → Nat → Except String (List Nat)) (length : Int) :
    (IsFile self = false →
      Read self rr length = .error (.notAFile (lastComp self.pathspec).path)) ∧
    (∀ msg : String, IsFile self = true →
      0 < min (self.size - self.offset) length →
      rr self.offset (min (self.size - self.offset) length)
        (lastComp self.pathspec).ntfs_type (lastComp self.pathspec).ntfs_id
        = .error msg →
      Read self rr length = .error (.ioFault msg)) := by
  constructor
  · intro h
    simp [Read, h]
  · intro msg hf hpos hrr
    simp [Read, hf, hpos, hrr]

/-- A 5-byte regular file at offset 0. -/
def faultSample : TSKFile :=
  { fd := { meta_type := TSK_FS_META_TYPE_REG }, size := 5 }

/-- Concrete run of tsk_read_fault_wrapped: a reader that always faults is
surfaced as an ioFault error on a 5-byte regular file. -/
theorem tsk_read_fault_wrapped_witness :
    IsFile faultSample = true ∧
    Read faultSample (fun _ _ _ _ => .error "read error") 3 =
      .error (.ioFault "read error") :=
  ⟨rfl, (tsk_read_fault_wrapped faultSample (fun _ _ _ _ => .error "read error") 3).2
    "read error" rfl (by decide) rfl⟩

/-! ## C6: chaining through a directory base of the same backend -/

/-- C6: constructing on a base that is itself a TSK handler denoting a
directory borrows the base's raw device reference, and the rewritten address
is the base's address with only its last component replaced: the new
component, its path set to the join of the base's last path and the new
component's path (and marked case-literal). The address keeps exactly the
base's number of components. -/
theorem tsk_init_directory_chain (b : TSKFile) (comp : PathComponent)
    (hdir : IsDirectory b = true) (hne : b.pathspec ≠ []) :
    initAddress (.tsk b) comp =
      .ok (b.tsk_raw_device,
        b.pathspec.dropLast ++
          [{ comp with path := JoinPath (lastComp b.pathspec).path comp.path,
                       path_options := CASE_LITERAL }]) ∧
    (b.pathspec.dropLast ++
      [{ comp with path := JoinPath (lastComp b.pathspec).path comp.path,
                   path_options := CASE_LITERAL }]).length = b.pathspec.length := by
  constructor
  · simp [initAddress, hdir, caseLiteralLast, setLast_append]
  · have h1 : 0 < b.pathspec.length := List.length_pos.mpr hne
    simp only [List.length_append, List.length_dropLast, List.length_singleton]
    omega

/-- A directory-typed TSK handler for the image root. -/
def chainBase : TSKFile :=
  { pathspec := [{ pathtype := PATH_TYPE_TSK, path := "/dev/sda1" },
                 { pathtype := PATH_TYPE_TSK, path := "/docs" }],
    tsk_raw_device := { path := "/dev/sda1" },
    fd := { meta_type := TSK_FS_META_TYPE_DIR } }

/-- Concrete run of tsk_init_directory_chain: chaining a component under the
directory keeps the address at two components and joins the paths. -/
theorem tsk_init_directory_chain_witness :
    IsDirectory chainBase = true ∧
    initAddress (.tsk chainBase) { pathtype := PATH_TYPE_TSK, path := "report.txt" } =
      .ok (chainBase.tsk_raw_device,
        chainBase.pathspec.dropLast ++
          [{ pathtype := PATH_TYPE_TSK,
             path := JoinPath (lastComp chainBase.pathspec).path "report.txt",
             path_options := CASE_LITERAL }]) :=
  ⟨rfl, (tsk_init_directory_chain chainBase
     { pathtype := PATH_TYPE_TSK, path := "report.txt" } rfl (by simp [chainBase])).1⟩

/-! ## C10: address rewriting precedes entry lookup -/

/-- On every successful address rewrite the last component ends up marked
case-literal. -/
theorem initAddress_case_literal (base_fd : BaseFd) (comp : PathComponent)
    (raw : RawDevice) (ps : List PathComponent)
    (h : initAddress base_fd comp = .ok (raw, ps)) :
    (lastComp ps).path_options = CASE_LITERAL := by
  cases base_fd with
  | noBase => simp [initAddress] at h
  | tsk b =>
    by_cases hd : IsDirectory b = true
    · simp [initAddress, hd, caseLiteralLast, setLast_append] at h
      obtain ⟨h1, h2⟩ := h
      subst h2
      rw [lastComp_append]
    · have hd2 : IsDirectory b = false := by
        cases hx : IsDirectory b
        · rfl
        · exact absurd hx hd
      simp [initAddress, hd2, caseLiteralLast, setLast_append] at h
      obtain ⟨h1, h2⟩ := h
      subst h2
      rw [lastComp_append]
  | other isDir r ps0 =>
    cases isDir with
    | true => simp [initAddress] at h
    | false =>
      simp [initAddress, caseLiteralLast, setLast_append] at h
      obtain ⟨h1, h2⟩ := h
      subst h2
      rw [lastComp_append]

/-- C10: with a valid base, the address is rewritten (joined or appended
component, case mode set literal) before the entry lookup: a lookup that
fails with not-found leaves the caller-visible address in exactly the
rewritten state `ps`, whose last component is already marked case-literal;
and an inode-based open never consults the path lookup — its outcome is
unchanged under any replacement of the session's open-by-path function. -/
theorem tsk_init_address_rewrite (base_fd : BaseFd) (comp : PathComponent)
    (fs : FSModel) (raw : RawDevice) (ps : List PathComponent)
    (h : initAddress base_fd comp = .ok (raw, ps)) :
    (lastComp ps).path_options = CASE_LITERAL ∧
    (comp.inode = none → fs.open_path (lastComp ps).path = none →
      tskInit base_fd comp fs = (ps, .error .notFound)) ∧
    (∀ n : Nat, comp.inode = some n → fs.open_meta n = none →
      tskInit base_fd comp fs = (ps, .error .notFound)) ∧
    (∀ n : Nat, comp.inode = some n → ∀ fs2 : FSModel,
      fs2.open_meta = fs.open_meta →
      tskInit base_fd comp fs2 = tskInit base_fd comp fs) := by
  refine ⟨initAddress_case_literal base_fd comp raw ps h, ?_, ?_, ?_⟩
  · intro hi hp
    simp [tskInit, h, hi, hp]
  · intro n hi hp
    simp [tskInit, h, hi, hp]
  · intro n hi fs2 hfs
    simp [tskInit, h, hi, hfs]

/-- A non-TSK file-like base handler over the raw device. -/
def rewriteBase : BaseFd :=
  .other false { path := "/dev/sda1" } [{ path := "/dev/sda1" }]

/-- A parse session in which no entry exists. -/
def emptyFS : FSModel :=
  { open_meta := fun _ => none, open_path := fun _ => none }

/-- Concrete run of tsk_init_address_rewrite: opening "docs" over rewriteBase
against an empty filesystem fails with notFound while the caller-visible
address already carries the appended, case-literal component. -/
theorem tsk_init_address_rewrite_witness :
    initAddress rewriteBase { path := "docs" } =
      .ok ({ path := "/dev/sda1" },
           [{ path := "/dev/sda1" }, { path := "docs", path_options := CASE_LITERAL }]) ∧
    tskInit rewriteBase { path := "docs" } emptyFS =
      ([{ path := "/dev/sda1" }, { path := "docs", path_options := CASE_LITERAL }],
       .error .notFound) :=
  ⟨rfl,
   (tsk_init_address_rewrite rewriteBase { path := "docs" } emptyFS
      { path := "/dev/sda1" }
      [{ path := "/dev/sda1" }, { path := "docs", path_options := CASE_LITERAL }]
      rfl).2.1 rfl rfl⟩

/-! ## C8: the device-cache check-then-create race -/

/-- C8 fails on the code: the constructor's cache phase is a bare
check-then-create, so the interleaving in which both first-time opens miss
the cache before either stores a session constructs two Filesystem Parse
Sessions for the one device identity; run sequentially, the same two opens
construct exactly one. -/
theorem device_cache_race :
    (raceRun [true, false, true, false] {}).constructed = 2 ∧
    (raceRun [true, true, false, false] {}).constructed = 1 := by
  constructor <;> rfl

/-! ## C9: inode truthiness in Open -/

/-- C9: with a base handle present, Open routes a component whose inode
field is absent or equal to 0 to the generic name-based open path; only a
non-zero inode takes the direct open-by-inode branch. -/
theorem tsk_open_inode_routing (component : PathComponent) :
    (component.inode = some 0 → TSKOpen true component = .generic) ∧
    (component.inode = none → TSKOpen true component = .generic) ∧
    (∀ n : Nat, component.inode = some n → n ≠ 0 →
      TSKOpen true component = .inodeOpen component) := by
  refine ⟨?_, ?_, ?_⟩
  · intro hi
    simp [TSKOpen, hi]
  · intro hi
    simp [TSKOpen, hi]
  · intro n hi hn
    simp [TSKOpen, hi, hn]

/-- A component carrying an explicit zero inode. -/
def zeroInodeComp : PathComponent := { path := "a", inode := some 0 }

/-- A component carrying inode 7. -/
def liveInodeComp : PathComponent := { path := "a", inode := some 7 }

/-- Concrete run of tsk_open_inode_routing: inode 0 goes to the generic
path, inode 7 to the inode fast path. -/
theorem tsk_open_inode_routing_witness :
    TSKOpen true zeroInodeComp = .generic ∧
    TSKOpen true liveInodeComp = .inodeOpen liveInodeComp :=
  ⟨(tsk_open_inode_routing zeroInodeComp).1 rfl,
   (tsk_open_inode_routing liveInodeComp).2.2 7 rfl (by decide)⟩

end Sleuthkit
